import Mathlib

/-!
Shallow embedding of the scrypted-matter Device Bridge Controller:
the namespaced storage key builder, the per-device-type adapter registry,
the enrollment state machine (`tryEnableMixin`), the startup enumeration
loop, the live-feed listen callback, and the event translation dispatcher
(`deviceListen`), translated from the plugin source.
-/

namespace ScryptedMatter

/-- Event descriptor delivered by the platform: interface name and property
name (the TS `EventDetails` fields used by the plugin). -/
structure EventDetails where
  eventInterface : String
  property : String
deriving Repr, DecidableEq

/-- The slice of a platform device the controller reads: identifier,
category (device type), attachment (mixin) list and capability set. -/
structure ScryptedDevice where
  id : String
  type : String
  mixins : List String
  interfaces : List String
deriving Repr, DecidableEq

/-- `EventStatus` from `types/index.ts`: `Handled`, `Unhandled`,
`NotSupported`, declared in that order, so their numeric enum values
are 0, 1, 2. -/
inductive EventStatus where
  | Handled
  | Unhandled
  | NotSupported
deriving Repr, DecidableEq

/-- Numeric value of the TS enum member (`Handled` is declared first,
hence 0). -/
def EventStatus.toNat : EventStatus → Nat
  | .Handled => 0
  | .Unhandled => 1
  | .NotSupported => 2

/-- Bridge-side node classes the adapters construct. -/
inductive MatterDevice where
  | OnOffLightDevice
  | OnOffPluginUnitDevice
deriving Repr, DecidableEq

/-- Adapter contract from `types/index.ts`: per-category `discover` and
`sendEvent`. `discover` returns `none` when the capability is missing
(the TS code returns `undefined`); `sendEvent` classifies one event.
Event payloads are modelled by their truthiness (the adapters only test
`if (eventData)`). -/
structure SupportedType where
  discover : ScryptedDevice → Option MatterDevice
  sendEvent : ScryptedDevice → EventDetails → Bool → EventStatus

/-- The switch adapter from `types/switch.ts`. -/
def switchType : SupportedType where
  discover d := if d.interfaces.contains "OnOff" then some .OnOffPluginUnitDevice else none
  sendEvent _ ed _ := if ed.eventInterface != "OnOff" then .NotSupported else .Handled

/-- The light adapter from `types/light.ts`. -/
def lightType : SupportedType where
  discover d := if d.interfaces.contains "OnOff" then some .OnOffLightDevice else none
  sendEvent _ ed _ := if ed.eventInterface != "OnOff" then .NotSupported else .Handled

/-- The adapter registry `supportedTypes` as populated at module load by
`types/switch.ts` and `types/light.ts` (an `outlet` module is imported by
`types/index.ts` but its source is not part of the repository snapshot;
it plays no role in the claims, which either quantify over an arbitrary
registry or use the switch/light categories). -/
def supportedTypes : String → Option SupportedType := fun t =>
  if t = "Switch" then some switchType
  else if t = "Light" then some lightType
  else none

/-- `true` when the character list contains two adjacent dots, i.e. the
string contains the substring `".."` (JS `contextKey.includes("..")`). -/
def hasDoubleDotChars : List Char → Bool
  | '.' :: '.' :: _ => true
  | _ :: rest => hasDoubleDotChars rest
  | [] => false

/-- JS `s.includes("..")`. -/
def stringHasDoubleDot (s : String) : Bool :=
  hasDoubleDotChars s.data

/-- JS `s.startsWith(".")`. -/
def startsWithDot (s : String) : Bool :=
  match s.data with
  | '.' :: _ => true
  | _ => false

/-- JS `s.endsWith(".")`. -/
def endsWithDot (s : String) : Bool :=
  match s.data.getLast? with
  | some '.' => true
  | _ => false

/-- `MatterPlugin.buildStorageKey`: joins the context segments with `"."`
and throws a `StorageError` when the key is empty, the joined context is
empty, contains `".."`, or starts or ends with `"."`; otherwise returns
`contextKey ++ "." ++ key`. -/
def buildStorageKey (contexts : List String) (key : String) : Except String String :=
  let contextKey := String.intercalate "." contexts
  if key.length == 0 || contextKey.length == 0 || stringHasDoubleDot contextKey
      || startsWithDot contextKey || endsWithDot contextKey then
    .error "Context must not be an empty string!"
  else
    .ok (contextKey ++ "." ++ key)

/-- `true` exactly when `buildStorageKey` throws. -/
def buildStorageKeyFails (contexts : List String) (key : String) : Bool :=
  match buildStorageKey contexts key with
  | .error _ => true
  | .ok _ => false

/-- `DeviceMixinStatus` from the plugin source: `NotSupported = 0`,
`Setup = 1`, `AlreadySetup = 2`. -/
inductive DeviceMixinStatus where
  | NotSupported
  | Setup
  | AlreadySetup
deriving Repr, DecidableEq

/-- The module constant `includeToken = 4` (the current enrollment-version
token). The enrollment definitions take the token as a parameter so that
claims about bumping it can be stated; the deployed plugin instantiates the
parameter with this constant. -/
def includeToken : Nat := 4

/-- Result of one call of `tryEnableMixin`: either the returned status or
a thrown error (the `setMixins` platform call rejecting). -/
inductive EnrollOutcome where
  | ok (status : DeviceMixinStatus)
  | threw
deriving Repr, DecidableEq

/-- One run of `tryEnableMixin` together with the external state it may
have mutated: the device's attachment (mixin) list, carried on the device
value, and the plugin's persisted `defaultIncluded` record (device id to
stored version token). -/
structure EnrollRun where
  outcome : EnrollOutcome
  device : Option ScryptedDevice
  defaultIncluded : List (String × Nat)
deriving Repr, DecidableEq

/-- JS `defaultIncluded[device.id]`: `none` models `undefined`. -/
def lookupIncluded (di : List (String × Nat)) (id : String) : Option Nat :=
  di.lookup id

/-- JS `defaultIncluded[device.id] = tok`: functional update of the record. -/
def setIncluded (di : List (String × Nat)) (id : String) (tok : Nat) : List (String × Nat) :=
  (id, tok) :: di.filter (fun p => p.1 != id)

/-- `MatterPlugin.tryEnableMixin`, with its guards in source order:
1. missing device returns `NotSupported`;
2. a mixin list containing the plugin's own id returns `AlreadySetup`;
3. a `defaultIncluded` entry equal to the current token returns
   `AlreadySetup`;
4. a device type absent from `supportedTypes` returns `NotSupported`;
5. otherwise the plugin id is pushed onto the mixin list, `setMixins` is
   called (`setMixinsOk = false` models the external call throwing, which
   aborts the function before the record write), the token is recorded in
   `defaultIncluded`, and `Setup` is returned. -/
def tryEnableMixin (registry : String → Option SupportedType)
    (selfId : String) (tok : Nat)
    (defaultIncluded : List (String × Nat))
    (setMixinsOk : Bool)
    (device : Option ScryptedDevice) : EnrollRun :=
  match device with
  | none => ⟨.ok .NotSupported, none, defaultIncluded⟩
  | some d =>
    if d.mixins.contains selfId then
      ⟨.ok .AlreadySetup, some d, defaultIncluded⟩
    else if lookupIncluded defaultIncluded d.id == some tok then
      ⟨.ok .AlreadySetup, some d, defaultIncluded⟩
    else if (registry d.type).isNone then
      ⟨.ok .NotSupported, some d, defaultIncluded⟩
    else if setMixinsOk then
      ⟨.ok .Setup, some { d with mixins := d.mixins ++ [selfId] },
        setIncluded defaultIncluded d.id tok⟩
    else
      ⟨.threw, some d, defaultIncluded⟩

/-- The status a run returned, `none` when it threw. -/
def runStatus (r : EnrollRun) : Option DeviceMixinStatus :=
  match r.outcome with
  | .ok s => some s
  | .threw => none

/-- The Enrollment State Machine's three classification states as the
spec names them. -/
inductive SpecEnrollResult where
  | NotSupported
  | NeedsSetup
  | AlreadySetup
deriving Repr, DecidableEq

/-- Modelled from the spec: the transition function of section 4.3,
rules evaluated in the numbered order 1..5 — absent device, mixin list
containing the controller identity, enrollment record carrying the
current token, category without adapter, otherwise needs setup. -/
def specEnrollClassify (registry : String → Option SupportedType)
    (selfId : String) (tok : Nat)
    (defaultIncluded : List (String × Nat))
    (device : Option ScryptedDevice) : SpecEnrollResult :=
  match device with
  | none => .NotSupported
  | some d =>
    if d.mixins.contains selfId then .AlreadySetup
    else if lookupIncluded defaultIncluded d.id == some tok then .AlreadySetup
    else if (registry d.type).isNone then .NotSupported
    else .NeedsSetup

/-- The one-shot `Setup` signal corresponds to the spec's `NeedsSetup`
classification. -/
def statusToSpec : DeviceMixinStatus → SpecEnrollResult
  | .NotSupported => .NotSupported
  | .Setup => .NeedsSetup
  | .AlreadySetup => .AlreadySetup

/-- Two successive runs of the enrollment machine for the same device,
with no external mutation in between: the second run reads the device and
record state the first run left behind. -/
def runTwice (registry : String → Option SupportedType)
    (selfId : String) (tok : Nat)
    (defaultIncluded : List (String × Nat))
    (device : Option ScryptedDevice) : EnrollRun × EnrollRun :=
  let r1 := tryEnableMixin registry selfId tok defaultIncluded true device
  let r2 := tryEnableMixin registry selfId tok r1.defaultIncluded true r1.device
  (r1, r2)

/-- Observable effects of one `deviceListen` call: how many times the
adapter registry was consulted, how many times an adapter's `sendEvent`
was invoked, and the warning lines written to the console. -/
structure DispatchTrace where
  registryLookups : Nat
  sendEventCalls : Nat
  warnings : List String
deriving Repr, DecidableEq

/-- The JS `report` variable of `deviceListen`: first the adapter's
`EventStatus`, possibly replaced by the empty object `{}` on the
Online/Battery fix-up branches. -/
inductive Report where
  | status (s : EventStatus)
  | emptyObject
deriving Repr, DecidableEq

/-- JS truthiness of `report`: an enum value is its number, so
`EventStatus.Handled` (numeric value 0) is falsy and the other two
statuses are truthy; the empty object is truthy. -/
def Report.truthy : Report → Bool
  | .status s => s.toNat != 0
  | .emptyObject => true

/-- `MatterPlugin.deviceListen`, guard for guard: drop on a missing
source, drop when the source id is not in `syncedDevices`, drop on the
`ScryptedDevice` lifecycle interface, drop silently when the registry has
no adapter for the device type; otherwise call `sendEvent`, apply the
Online and Battery fix-ups to the falsy report, and warn-and-drop when
the report is still falsy. -/
def deviceListen (registry : String → Option SupportedType)
    (syncedDevices : List String)
    (eventSource : Option ScryptedDevice)
    (eventDetails : EventDetails) (eventData : Bool) : DispatchTrace :=
  match eventSource with
  | none => ⟨0, 0, []⟩
  | some src =>
    if !(syncedDevices.contains src.id) then ⟨0, 0, []⟩
    else if eventDetails.eventInterface == "ScryptedDevice" then ⟨0, 0, []⟩
    else
      match registry src.type with
      | none => ⟨1, 0, []⟩
      | some st =>
        let report0 : Report := .status (st.sendEvent src eventDetails eventData)
        let report1 :=
          if !report0.truthy && eventDetails.eventInterface == "Online" then
            Report.emptyObject
          else report0
        let report2 :=
          if !report1.truthy && eventDetails.eventInterface == "Battery" then
            Report.emptyObject
          else report1
        if !report2.truthy then
          ⟨1, 1, [eventDetails.eventInterface ++ "." ++ eventDetails.property
            ++ " not supported for device " ++ src.type]⟩
        else ⟨1, 1, []⟩

/-- State threaded through the startup enumeration loop of
`MatterPlugin.start`: the persisted record, the devices whose loop
iteration completed, the devices for which the adapter's `discover` was
invoked, the devices passed to `aggregator.addBridgedDevice`, and whether
an exception escaped the loop (there is no try/catch around the body, so
a throw aborts the whole enumeration and the remaining devices are never
visited). -/
structure StartState where
  defaultIncluded : List (String × Nat)
  processed : List String
  discoverCalls : List String
  bridged : List String
  aborted : Bool
deriving Repr, DecidableEq

/-- The startup enumeration loop of `MatterPlugin.start` (the `for` over
`systemManager.getSystemState()`): each device is run through
`tryEnableMixin`; when the status is `Setup` or `AlreadySetup` the loop
fetches the adapter (`supportedTypes.get` returning `undefined` makes the
following `.discover` call throw) and calls `discover` and
`addBridgedDevice`. A thrown error propagates out of the loop. -/
def startEnumeration (registry : String → Option SupportedType)
    (selfId : String) (tok : Nat) (setMixinsOk : String → Bool) :
    List ScryptedDevice → StartState → StartState
  | [], s => s
  | d :: rest, s =>
    let run := tryEnableMixin registry selfId tok s.defaultIncluded (setMixinsOk d.id) (some d)
    match run.outcome with
    | .threw => { s with aborted := true }
    | .ok status =>
      let s1 := { s with defaultIncluded := run.defaultIncluded }
      if status == .Setup || status == .AlreadySetup then
        match registry d.type with
        | none => { s1 with aborted := true }
        | some _ =>
          startEnumeration registry selfId tok setMixinsOk rest
            { s1 with
              processed := s1.processed ++ [d.id],
              discoverCalls := s1.discoverCalls ++ [d.id],
              bridged := s1.bridged ++ [d.id] }
      else
        startEnumeration registry selfId tok setMixinsOk rest
          { s1 with processed := s1.processed ++ [d.id] }

/-- The empty loop state with a given persisted record. -/
def initialStartState (di : List (String × Nat)) : StartState :=
  ⟨di, [], [], [], false⟩

/-- Observable effects of one run of the `systemManager.listen` callback
registered by `MatterPlugin.start`. -/
structure ListenTrace where
  discoverCalls : Nat
  bridgedAdds : Nat
  dispatched : Bool
  aborted : Bool
deriving Repr, DecidableEq

/-- The live-feed callback of `MatterPlugin.start`: run `tryEnableMixin`
on the event source; only on `Setup` fetch the adapter and call
`discover` and `addBridgedDevice`; on `Setup` or `AlreadySetup` register
the device for sync and forward the event to `deviceListen`. -/
def listenCallback (registry : String → Option SupportedType)
    (selfId : String) (tok : Nat)
    (defaultIncluded : List (String × Nat))
    (setMixinsOk : Bool)
    (eventSource : Option ScryptedDevice) : ListenTrace :=
  let run := tryEnableMixin registry selfId tok defaultIncluded setMixinsOk eventSource
  match run.outcome, run.device with
  | .threw, _ => ⟨0, 0, false, true⟩
  | .ok .Setup, some d =>
    match registry d.type with
    | none => ⟨0, 0, false, true⟩
    | some _ => ⟨1, 1, true, false⟩
  | .ok .Setup, none => ⟨0, 0, false, true⟩
  | .ok .AlreadySetup, _ => ⟨0, 0, true, false⟩
  | .ok .NotSupported, _ => ⟨0, 0, false, false⟩

/-- Helper: a list extended with an element contains that element. -/
theorem contains_append_self (l : List String) (a : String) :
    (l ++ [a]).contains a = true := by
  simp

/-- Helper: `buildStorageKey` fails exactly on the source guard
condition. -/
theorem buildStorageKeyFails_eq (contexts : List String) (key : String) :
    buildStorageKeyFails contexts key =
      (key.length == 0 || (String.intercalate "." contexts).length == 0
        || stringHasDoubleDot (String.intercalate "." contexts)
        || startsWithDot (String.intercalate "." contexts)
        || endsWithDot (String.intercalate "." contexts)) := by
  unfold buildStorageKeyFails buildStorageKey
  cases h : (key.length == 0 || (String.intercalate "." contexts).length == 0
      || stringHasDoubleDot (String.intercalate "." contexts)
      || startsWithDot (String.intercalate "." contexts)
      || endsWithDot (String.intercalate "." contexts)) <;> simp [h]

/-- Claim C7 counterexample: `buildStorageKey ["a.b"] "x"` does not fail
with an invalid-key error — the joined context is just `"a.b"`, which
contains no `".."` — so it succeeds and returns `"a.b.x"`, contradicting
the claim that it fails. -/
theorem buildStorageKey_single_segment_with_dot_succeeds :
    buildStorageKey ["a.b"] "x" = .ok "a.b.x" ∧
    buildStorageKeyFails ["a.b"] "x" = false := ⟨rfl, rfl⟩

/-- Claim C7 (amended): `buildStorageKey` fails exactly when the key is
empty, the context list is empty, or the joined context string is empty,
contains `".."`, or starts or ends with the separator; `buildKey([], "x")`,
`buildKey(["a"], "")` and `buildKey(["a",""], "x")` all fail, while
`buildKey(["a","b"], "x")` succeeds and returns `"a.b.x"` (and, per the
counterexample, `buildKey(["a.b"], "x")` also succeeds). -/
theorem buildStorageKey_failure_characterization :
    (∀ contexts key, buildStorageKeyFails contexts key =
      (key.length == 0 || contexts.isEmpty
        || (String.intercalate "." contexts).length == 0
        || stringHasDoubleDot (String.intercalate "." contexts)
        || startsWithDot (String.intercalate "." contexts)
        || endsWithDot (String.intercalate "." contexts))) ∧
    buildStorageKeyFails [] "x" = true ∧
    buildStorageKeyFails ["a"] "" = true ∧
    buildStorageKeyFails ["a", ""] "x" = true ∧
    buildStorageKey ["a", "b"] "x" = .ok "a.b.x" := by
  refine ⟨fun contexts key => ?_, by decide, by decide, by decide, rfl⟩
  cases contexts with
  | nil =>
    have hnil : String.intercalate "." ([] : List String) = "" := rfl
    simp [buildStorageKeyFails_eq, hnil, stringHasDoubleDot, hasDoubleDotChars,
      startsWithDot, endsWithDot]
  | cons c cs => simp [buildStorageKeyFails_eq]

/-- Claim C10: the leaf key is only checked for non-emptiness, never for
its shape: with the valid non-empty context `["a"]` and the non-empty key
`".x"` (which begins with the separator), `buildStorageKey` succeeds and
returns `"a..x"`, a string containing `".."`. -/
theorem buildStorageKey_ignores_leaf_key_shape :
    buildStorageKey ["a"] ".x" = .ok "a..x" ∧
    startsWithDot ".x" = true ∧
    (".x").length ≠ 0 ∧
    stringHasDoubleDot "a..x" = true := ⟨rfl, rfl, by decide, rfl⟩

/-- Claim C8: an event whose source-device identifier is not in the
Synced-Device Set is dropped before the adapter registry is consulted:
`deviceListen` performs zero registry lookups, zero `sendEvent` calls and
logs nothing. -/
theorem unsynced_event_no_registry_calls
    (registry : String → Option SupportedType)
    (synced : List String) (src : ScryptedDevice)
    (details : EventDetails) (data : Bool)
    (h : synced.contains src.id = false) :
    deviceListen registry synced (some src) details data = ⟨0, 0, []⟩ := by
  simp only [deviceListen, h]
  rfl

/-- Witness for C8 at a concrete unsynced device. -/
theorem unsynced_event_no_registry_calls_witness :
    deviceListen supportedTypes ["other"]
      (some ⟨"d1", "Switch", ["plugin"], ["OnOff"]⟩) ⟨"OnOff", "on"⟩ true
      = ⟨0, 0, []⟩ :=
  unsynced_event_no_registry_calls supportedTypes ["other"]
    ⟨"d1", "Switch", ["plugin"], ["OnOff"]⟩ ⟨"OnOff", "on"⟩ true rfl

/-- Claim C1: the dispatcher's warning logic is inverted relative to the
claim. `EventStatus.Handled` has numeric value 0, so `!report` is true
precisely when the adapter handled the event: for a synced switch whose
adapter returns `Handled` for an `OnOff` event (an interface outside the
Online/Battery allowlist), `deviceListen` logs the warning, while for a
`Brightness` event the adapter returns `NotSupported` (truthy value 2)
and no warning is logged — the exact opposite of the claimed behavior. -/
theorem dispatch_inverts_eventStatus_at_onOff_event :
    switchType.sendEvent ⟨"d1", "Switch", ["plugin"], ["OnOff"]⟩ ⟨"OnOff", "on"⟩ true
      = .Handled ∧
    (deviceListen supportedTypes ["d1"]
      (some ⟨"d1", "Switch", ["plugin"], ["OnOff"]⟩) ⟨"OnOff", "on"⟩ true).warnings
      = ["OnOff.on not supported for device Switch"] ∧
    switchType.sendEvent ⟨"d1", "Switch", ["plugin"], ["OnOff"]⟩
      ⟨"Brightness", "brightness"⟩ true = .NotSupported ∧
    (deviceListen supportedTypes ["d1"]
      (some ⟨"d1", "Switch", ["plugin"], ["OnOff"]⟩)
      ⟨"Brightness", "brightness"⟩ true).warnings = [] := ⟨rfl, rfl, rfl, rfl⟩

/-- Claim C9: the startup enumeration has no per-device error isolation:
with two enrollable switches where the first device's `setMixins` call
throws, the whole loop aborts — no device is processed, the second device
(which on its own would enroll with `Setup`) is never visited and no
`discover` or `addBridgedDevice` call happens. -/
theorem startup_aborts_on_first_device_failure :
    (startEnumeration supportedTypes "plugin" 4 (fun i => i != "d2")
      [⟨"d2", "Switch", [], ["OnOff"]⟩, ⟨"d3", "Switch", [], ["OnOff"]⟩]
      (initialStartState [])).aborted = true ∧
    (startEnumeration supportedTypes "plugin" 4 (fun i => i != "d2")
      [⟨"d2", "Switch", [], ["OnOff"]⟩, ⟨"d3", "Switch", [], ["OnOff"]⟩]
      (initialStartState [])).processed = [] ∧
    (startEnumeration supportedTypes "plugin" 4 (fun i => i != "d2")
      [⟨"d2", "Switch", [], ["OnOff"]⟩, ⟨"d3", "Switch", [], ["OnOff"]⟩]
      (initialStartState [])).discoverCalls = [] ∧
    (tryEnableMixin supportedTypes "plugin" 4 [] true
      (some ⟨"d3", "Switch", [], ["OnOff"]⟩)).outcome = .ok .Setup :=
  ⟨rfl, rfl, rfl, rfl⟩

/-- Helper: a device whose mixin list contains the plugin id is classified
`AlreadySetup` with no state change, whatever the other inputs. -/
theorem tryEnableMixin_alreadySetup_of_contains
    (registry : String → Option SupportedType) (selfId : String) (tok : Nat)
    (di : List (String × Nat)) (ok : Bool) (d : ScryptedDevice)
    (h : selfId ∈ d.mixins) :
    tryEnableMixin registry selfId tok di ok (some d) = ⟨.ok .AlreadySetup, some d, di⟩ := by
  simp [tryEnableMixin, h]

/-- Claim C3: the enrollment machine evaluates its guards in exactly the
spec's order. -/
theorem tryEnableMixin_matches_spec_order
    (registry : String → Option SupportedType) (selfId : String) (tok : Nat)
    (di : List (String × Nat)) (device : Option ScryptedDevice) :
    (runStatus (tryEnableMixin registry selfId tok di true device)).map statusToSpec
      = some (specEnrollClassify registry selfId tok di device) := by
  cases device with
  | none => rfl
  | some d =>
    simp only [tryEnableMixin, specEnrollClassify]
    split_ifs <;> rfl

/-- Claim C4 counterexample. -/
theorem second_run_not_alreadySetup_for_unsupported :
    ((runTwice supportedTypes "plugin" 4 [] (some ⟨"d9", "Thermostat", [], []⟩)).2).outcome
      ≠ .ok .AlreadySetup ∧
    ((runTwice supportedTypes "plugin" 4 [] (some ⟨"d9", "Thermostat", [], []⟩)).2).outcome
      = .ok .NotSupported := ⟨by decide, rfl⟩

/-- Claim C4 amended. -/
theorem second_run_never_setup
    (registry : String → Option SupportedType) (selfId : String) (tok : Nat)
    (di : List (String × Nat)) (device : Option ScryptedDevice) :
    (runTwice registry selfId tok di device).2.outcome ≠ .ok .Setup ∧
    ((runTwice registry selfId tok di device).1.outcome = .ok .Setup ∨
      (runTwice registry selfId tok di device).1.outcome = .ok .AlreadySetup →
      (runTwice registry selfId tok di device).2.outcome = .ok .AlreadySetup) := by
  cases device with
  | none =>
    constructor
    · simp [runTwice, tryEnableMixin]
    · intro hc
      simp [runTwice, tryEnableMixin] at hc
  | some d =>
    by_cases h1 : selfId ∈ d.mixins
    · constructor
      · simp [runTwice, tryEnableMixin, h1]
      · intro _
        simp [runTwice, tryEnableMixin, h1]
    · by_cases h2 : lookupIncluded di d.id = some tok
      · constructor
        · simp [runTwice, tryEnableMixin, h1, h2]
        · intro _
          simp [runTwice, tryEnableMixin, h1, h2]
      · by_cases h3 : registry d.type = none
        · constructor
          · simp [runTwice, tryEnableMixin, h1, h2, h3]
          · intro hc
            simp [runTwice, tryEnableMixin, h1, h2, h3] at hc
        · have hc : selfId ∈ d.mixins ++ [selfId] := by simp
          constructor
          · simp [runTwice, tryEnableMixin, h1, h2, h3, hc]
          · intro _
            simp [runTwice, tryEnableMixin, h1, h2, h3, hc]

/-- Claim C2 counterexample: at the startup enumeration, a device the
machine classifies `AlreadySetup` (its mixin list already contains the
plugin id) still triggers a `discover` call and an `addBridgedDevice`
registration. -/
theorem startup_discover_called_for_alreadySetup :
    (tryEnableMixin supportedTypes "plugin" 4 []
      true (some ⟨"d1", "Switch", ["plugin"], ["OnOff"]⟩)).outcome
      = .ok .AlreadySetup ∧
    (startEnumeration supportedTypes "plugin" 4 (fun _ => true)
      [⟨"d1", "Switch", ["plugin"], ["OnOff"]⟩]
      (initialStartState [])).discoverCalls = ["d1"] ∧
    (startEnumeration supportedTypes "plugin" 4 (fun _ => true)
      [⟨"d1", "Switch", ["plugin"], ["OnOff"]⟩]
      (initialStartState [])).bridged = ["d1"] := ⟨rfl, rfl, rfl⟩

/-- Claim C2 amended: on the live event feed, a device classified
`AlreadySetup` never triggers `discover` or `addBridgedDevice` (the event
is still forwarded to the dispatcher). -/
theorem liveFeed_alreadySetup_no_discover
    (registry : String → Option SupportedType) (selfId : String) (tok : Nat)
    (di : List (String × Nat)) (ok : Bool) (src : Option ScryptedDevice)
    (h : (tryEnableMixin registry selfId tok di ok src).outcome = .ok .AlreadySetup) :
    (listenCallback registry selfId tok di ok src).discoverCalls = 0 ∧
    (listenCallback registry selfId tok di ok src).bridgedAdds = 0 ∧
    (listenCallback registry selfId tok di ok src).dispatched = true := by
  unfold listenCallback
  rcases hr : tryEnableMixin registry selfId tok di ok src with ⟨o, dev, di2⟩
  rw [hr] at h
  simp only at h
  subst h
  cases dev <;> exact ⟨rfl, rfl, rfl⟩

/-- Witness for C2 at a concrete already-enrolled device. -/
theorem liveFeed_alreadySetup_no_discover_witness :
    (listenCallback supportedTypes "plugin" 4 [] true
      (some ⟨"d1", "Switch", ["plugin"], ["OnOff"]⟩)).discoverCalls = 0 ∧
    (listenCallback supportedTypes "plugin" 4 [] true
      (some ⟨"d1", "Switch", ["plugin"], ["OnOff"]⟩)).bridgedAdds = 0 ∧
    (listenCallback supportedTypes "plugin" 4 [] true
      (some ⟨"d1", "Switch", ["plugin"], ["OnOff"]⟩)).dispatched = true :=
  liveFeed_alreadySetup_no_discover supportedTypes "plugin" 4 [] true
    (some ⟨"d1", "Switch", ["plugin"], ["OnOff"]⟩) rfl

/-- Witness for C4's amended claim at a switch that enrolls on the first
run. -/
theorem second_run_never_setup_witness :
    (runTwice supportedTypes "plugin" 4 [("d2", 3)]
      (some ⟨"d2", "Switch", [], ["OnOff"]⟩)).2.outcome = .ok .AlreadySetup ∧
    (runTwice supportedTypes "plugin" 4 [("d2", 3)]
      (some ⟨"d2", "Switch", [], ["OnOff"]⟩)).2.outcome ≠ .ok .Setup :=
  ⟨(second_run_never_setup supportedTypes "plugin" 4 [("d2", 3)]
      (some ⟨"d2", "Switch", [], ["OnOff"]⟩)).2 (Or.inl rfl),
    (second_run_never_setup supportedTypes "plugin" 4 [("d2", 3)]
      (some ⟨"d2", "Switch", [], ["OnOff"]⟩)).1⟩

/-- Claim C5 counterexample: a device enrolled the normal way carries the
plugin id in its mixin list, and that guard runs before the version-token
guard: with the current token `includeToken = 4` and a stale stored token
3, the next evaluation still returns `AlreadySetup`, not the claimed
one-shot `Setup`. -/
theorem token_bump_ineffective_for_mixed_in_device :
    (tryEnableMixin supportedTypes "plugin" includeToken [("d1", 3)]
      true (some ⟨"d1", "Switch", ["plugin"], ["OnOff"]⟩)).outcome
      = .ok .AlreadySetup ∧
    (tryEnableMixin supportedTypes "plugin" includeToken [("d1", 3)]
      true (some ⟨"d1", "Switch", ["plugin"], ["OnOff"]⟩)).outcome
      ≠ .ok .Setup := ⟨rfl, by decide⟩

/-- Claim C5 amended: for a device whose mixin list does not contain the
plugin id, a stale stored token is treated as needing re-enrollment: the
next evaluation returns `Setup` exactly once (rewriting the token), and
the evaluation after that returns `AlreadySetup`. -/
theorem token_bump_forces_setup_once_without_mixin
    (registry : String → Option SupportedType) (selfId : String)
    (tok oldTok : Nat) (di : List (String × Nat)) (d : ScryptedDevice)
    (h1 : selfId ∉ d.mixins)
    (h2 : lookupIncluded di d.id = some oldTok)
    (h3 : oldTok ≠ tok)
    (h4 : (registry d.type).isSome = true) :
    (tryEnableMixin registry selfId tok di true (some d)).outcome = .ok .Setup ∧
    (tryEnableMixin registry selfId tok
      (tryEnableMixin registry selfId tok di true (some d)).defaultIncluded true
      (tryEnableMixin registry selfId tok di true (some d)).device).outcome
      = .ok .AlreadySetup := by
  have h3' : registry d.type ≠ none := by
    intro hn
    rw [hn] at h4
    exact absurd h4 (by decide)
  have heq : tryEnableMixin registry selfId tok di true (some d)
      = ⟨.ok .Setup, some { d with mixins := d.mixins ++ [selfId] },
          setIncluded di d.id tok⟩ := by
    simp [tryEnableMixin, h1, h2, h3, h3']
  rw [heq]
  have hm : selfId ∈ d.mixins ++ [selfId] := by simp
  refine ⟨rfl, ?_⟩
  rw [tryEnableMixin_alreadySetup_of_contains registry selfId tok
    (setIncluded di d.id tok) true { d with mixins := d.mixins ++ [selfId] } hm]

/-- Witness for C5's amended claim at a concrete switch with stale token
3 under the current token 4. -/
theorem token_bump_forces_setup_once_without_mixin_witness :
    (tryEnableMixin supportedTypes "plugin" 4 [("d2", 3)] true
      (some ⟨"d2", "Switch", [], ["OnOff"]⟩)).outcome = .ok .Setup ∧
    (tryEnableMixin supportedTypes "plugin" 4
      (tryEnableMixin supportedTypes "plugin" 4 [("d2", 3)] true
        (some ⟨"d2", "Switch", [], ["OnOff"]⟩)).defaultIncluded true
      (tryEnableMixin supportedTypes "plugin" 4 [("d2", 3)] true
        (some ⟨"d2", "Switch", [], ["OnOff"]⟩)).device).outcome
      = .ok .AlreadySetup :=
  token_bump_forces_setup_once_without_mixin supportedTypes "plugin" 4 3
    [("d2", 3)] ⟨"d2", "Switch", [], ["OnOff"]⟩ (by decide) rfl (by decide) rfl

/-- Claim C6: when the `setMixins` platform call throws, the enrollment
transition is not committed: the `defaultIncluded` record and the device
are unchanged, and a later evaluation (with the mutation succeeding)
attempts setup again and returns `Setup`. -/
theorem failed_setMixins_leaves_record_unchanged
    (registry : String → Option SupportedType) (selfId : String) (tok : Nat)
    (di : List (String × Nat)) (device : Option ScryptedDevice)
    (h : (tryEnableMixin registry selfId tok di false device).outcome = .threw) :
    (tryEnableMixin registry selfId tok di false device).defaultIncluded = di ∧
    (tryEnableMixin registry selfId tok di false device).device = device ∧
    (tryEnableMixin registry selfId tok di true device).outcome = .ok .Setup := by
  cases device with
  | none => simp [tryEnableMixin] at h
  | some d =>
    by_cases h1 : selfId ∈ d.mixins
    · simp [tryEnableMixin, h1] at h
    · by_cases h2 : lookupIncluded di d.id = some tok
      · simp [tryEnableMixin, h1, h2] at h
      · by_cases h3 : registry d.type = none
        · simp [tryEnableMixin, h1, h2, h3] at h
        · exact ⟨by simp [tryEnableMixin, h1, h2, h3],
            by simp [tryEnableMixin, h1, h2, h3],
            by simp [tryEnableMixin, h1, h2, h3]⟩

/-- Witness for C6 at a concrete switch whose `setMixins` call fails. -/
theorem failed_setMixins_leaves_record_unchanged_witness :
    (tryEnableMixin supportedTypes "plugin" 4 [("d2", 3)] false
      (some ⟨"d2", "Switch", [], ["OnOff"]⟩)).defaultIncluded = [("d2", 3)] ∧
    (tryEnableMixin supportedTypes "plugin" 4 [("d2", 3)] false
      (some ⟨"d2", "Switch", [], ["OnOff"]⟩)).device
      = some ⟨"d2", "Switch", [], ["OnOff"]⟩ ∧
    (tryEnableMixin supportedTypes "plugin" 4 [("d2", 3)] true
      (some ⟨"d2", "Switch", [], ["OnOff"]⟩)).outcome = .ok .Setup :=
  failed_setMixins_leaves_record_unchanged supportedTypes "plugin" 4 [("d2", 3)]
    (some ⟨"d2", "Switch", [], ["OnOff"]⟩) rfl

end ScryptedMatter
